import Mathlib

/-!
Verification of the pyphishnet client library (src/pyphishnet/api.py and
src/pyphishnet/exceptions.py) against its natural-language specification.

The Python code is shallowly embedded in Lean:
* JSON values are the inductive `Json`; `dict.get` on a JSON object is
  `Json.get` (returning `Json.null` for a missing key, as Python returns
  `None`).
* A pandas dataframe is modelled by its list of rows, each row being an
  index label paired with a record (`DataFrame`).
* The HTTP layer (`requests.request`) is an oracle `Http` mapping the
  requested endpoint URL and the query-parameter payload to a `Response`.
* Python exceptions are the inductive `PyError`; a method that can raise
  returns an `Except PyError` result.  Instance-attribute mutation is
  explicit state passing on the `PhishNetAPI` structure: each endpoint
  method returns the updated instance together with its result (and, for
  `get_shows_by_year` / `get_all_shows`, the list of warnings emitted).
* `datetime.datetime.now().year` is an explicit `current_year` parameter.
-/

/-! ### JSON values -/

/-- A JSON value as deserialized by `response.json()`.  Numbers are
modelled as integers (the fields exercised by the wrapper — `error_code`,
`count`, ids — are integral). -/
inductive Json where
  | null
  | num (n : Int)
  | str (s : String)
  | arr (elems : List Json)
  | obj (fields : List (String × Json))

/-- Python `dict.get(key)`: the first binding of `key` in an object, and
`None` (here `Json.null`) when the key is absent.  The wrapper only calls
`.get` on JSON objects. -/
def Json.get : Json → String → Json
  | .obj fields, key =>
    match fields.lookup key with
    | some v => v
    | none => .null
  | _, _ => .null

/-- Python `str()` of a JSON value, as used by the f-string in
`_response_has_error`.  The wrapper only formats the atomic values
returned in `error_code` / `error_message`; container values never reach
the f-string in the claims below, so they are rendered by a simple
bracket placeholder. -/
def Json.pyStr : Json → String
  | .null => "None"
  | .num n => toString n
  | .str s => s
  | .arr _ => "[...]"
  | .obj _ => "\x7b...\x7d"

/-- Python `x != 0` for a JSON value `x` (comparison against the int `0`):
only the JSON number `0` compares equal to `0`; any other value — a
different number, a string, `None`, a container — is `!= 0`. -/
def Json.neZeroPy (j : Json) : Bool :=
  match j with
  | .num n => n != 0
  | _ => true

/-- Python `x >= 300` for a JSON value `x`: defined on numbers, a
`TypeError` otherwise (e.g. comparing `None` with an int). -/
def Json.geIntPy (j : Json) (m : Int) : Option Bool :=
  match j with
  | .num n => some (m ≤ n)
  | _ => none

/-- Replace the value of field `key` (or append the field if absent), as
the pandas column assignment `df[key] = ...` does per row. -/
def Json.setField : Json → String → Json → Json
  | .obj fields, key, v =>
    if (fields.lookup key).isSome then
      .obj (fields.map (fun p => if p.1 = key then (key, v) else p))
    else
      .obj (fields ++ [(key, v)])
  | j, _, _ => j

/-! ### Dataframes -/

/-- A pandas dataframe, modelled as its rows: each row is an index label
(a JSON value: an integer for a range index, a string for the venue-id
index produced by `.transpose()`) paired with the row's record. -/
structure DataFrame where
  rows : List (Json × Json)

/-- `pd.DataFrame()` — the empty dataframe. -/
def DataFrame.emptyDF : DataFrame := ⟨[]⟩

/-- The pandas `.empty` property. -/
def DataFrame.empty (df : DataFrame) : Bool := df.rows.isEmpty

/-- A fresh `RangeIndex` starting at `i`, as produced by
`pd.DataFrame(list_of_records)` and by `ignore_index=True`. -/
def resetIndexFrom (i : Int) : List Json → List (Json × Json)
  | [] => []
  | r :: rs => (Json.num i, r) :: resetIndexFrom (i + 1) rs

/-- Rows re-indexed 0, 1, 2, ... -/
def resetIndex (records : List Json) : List (Json × Json) :=
  resetIndexFrom 0 records

/-- The records of a dataframe, without their index labels. -/
def DataFrame.records (df : DataFrame) : List Json :=
  df.rows.map Prod.snd

/-- `pd.DataFrame(data)` for the record-list payloads returned by the
shows and setlist endpoints: one row per record, range-indexed.
`pd.DataFrame(None)` is the empty dataframe. -/
def dfOfRecords : Json → DataFrame
  | .arr xs => ⟨resetIndex xs⟩
  | _ => ⟨[]⟩

/-- `pd.DataFrame(data).transpose()` for the object-of-records payload
returned by the venues endpoint: each outer key (venue id) becomes one
row, labelled by that key, holding the venue's record. -/
def dfOfObjTransposed : Json → DataFrame
  | .obj fields => ⟨fields.map (fun p => (Json.str p.1, p.2))⟩
  | _ => ⟨[]⟩

/-- `pd.concat([a, b], ignore_index=True)`: stack the rows and rebuild a
fresh range index. -/
def DataFrame.concatIgnoreIndex (a b : DataFrame) : DataFrame :=
  ⟨resetIndex (a.records ++ b.records)⟩

/-- The (old-pandas) `a.append(b)`: stack the rows, keeping indexes. -/
def DataFrame.appendDF (a b : DataFrame) : DataFrame :=
  ⟨a.rows ++ b.rows⟩

/-- The column assignment
`setlist['setlistdata_clean'] = setlist['setlistdata'].apply(parse_setlist_field)`:
per row, add a `setlistdata_clean` field computed from the row's
`setlistdata` field.  `parse_setlist_field` lives in the repository's
`util` module and is passed in as a function. -/
def DataFrame.assignSetlistClean (df : DataFrame) (parse_setlist_field : Json → Json) : DataFrame :=
  ⟨df.rows.map (fun p =>
    (p.1, p.2.setField "setlistdata_clean" (parse_setlist_field (p.2.get "setlistdata"))))⟩

/-! ### Python `str.replace` -/

/-- Structural worker for `str.replace`: `fuel` bounds the recursion depth
(one unit per character consumed) so the function is structurally
recursive and hence kernel-computable.  `replaceAll` below always supplies
enough fuel, and the unfolding lemmas `replaceAll_nil`,
`replaceAll_cons_empty`, `replaceAll_cons_pos`, `replaceAll_cons_neg`
restate the Python scan exactly. -/
def replaceAllFuel (k r : List Char) : Nat → List Char → List Char
  | _, [] => if k = [] then r else []
  | 0, s => s
  | fuel + 1, c :: t =>
    if k = [] then r ++ c :: replaceAllFuel k r fuel t
    else if List.isPrefixOf k (c :: t) then
      r ++ replaceAllFuel k r fuel (List.drop k.length (c :: t))
    else c :: replaceAllFuel k r fuel t

/-- Python `s.replace(k, r)`: replace every occurrence of `k` in `s` by
`r`, scanning left to right over non-overlapping occurrences; for the
empty pattern, `r` is inserted at every position. -/
def replaceAll (k r s : List Char) : List Char :=
  replaceAllFuel k r s.length s

/-- Python `s.replace(k, r)` on strings. -/
def pyReplace (s k r : String) : String :=
  ⟨replaceAll k.toList r.toList s.toList⟩

/-! ### Exceptions (src/pyphishnet/exceptions.py) -/

/-- The exceptions an endpoint method can raise: the module's own
`ResponseError` and `ApiKeyError` (each carrying its message), the
`requests` `HTTPError` raised by `response.raise_for_status()` (carrying
the status code), and Python's `TypeError` (reachable when comparing a
non-numeric `count` with `300`). -/
inductive PyError where
  | responseError (message : String)
  | apiKeyError (message : String)
  | httpError (status_code : Nat)
  | typeError (message : String)

/-- Whether an exception is the wrapper's `ResponseError`. -/
def PyError.isResponseError : PyError → Bool
  | .responseError _ => true
  | _ => false

/-! ### HTTP layer -/

/-- A query-parameter payload: an insertion-ordered dict of JSON-typed
values (the api key and `order` are strings, `year` is an int, `showid`
is whatever the shows dataframe holds). -/
abbrev Payload := List (String × Json)

/-- An HTTP response: its status code, its final URL (as reported by
`response.url`), and its JSON body (`response.json()`). -/
structure Response where
  status_code : Nat
  url : String
  body : Json

/-- The HTTP layer: `requests.request("GET", endpoint, params=payload)`
modelled as an oracle from the endpoint URL and the payload to the
response. -/
abbrev Http := String → Payload → Response

/-- `requests.codes.ok`. -/
def requests_codes_ok : Nat := 200

/-- `response.raise_for_status()`: raises `HTTPError` exactly for client
(4xx) and server (5xx) error status codes. -/
def raise_for_status (response : Response) : Except PyError Unit :=
  if 400 ≤ response.status_code ∧ response.status_code < 600 then
    .error (.httpError response.status_code)
  else
    .ok ()

/-! ### PhishNetAPI state (src/pyphishnet/api.py) -/

/-- The instance attributes of a `PhishNetAPI` object.  `endpoint_`,
`url_`, `query_string_` and `null_setlists` are assigned dynamically by
the endpoint methods and are `none` until first assigned. -/
structure PhishNetAPI where
  _api_key : String
  _base_url : String
  _request_limit : Nat
  has_api_key : Bool
  endpoint_ : Option String := none
  url_ : Option String := none
  query_string_ : Option String := none
  null_setlists : Option (List Json) := none

/-- The (concatenated-literal) message of the missing-key error; the
source adjoins `'...environment'` and `'variables...'` with no space. -/
def apiKeyErrorMessage : String :=
  "No API key found. Check your environmentvariables and try again."

/-- `PhishNetAPI.__init__`: read `PHISH_API_KEY` from the environment
(`env_PHISH_API_KEY` is `os.environ.get('PHISH_API_KEY')`), fail with
`ApiKeyError` when it is unset, otherwise record `has_api_key = True`. -/
def PhishNetAPI.init (env_PHISH_API_KEY : Option String) : Except PyError PhishNetAPI :=
  match env_PHISH_API_KEY with
  | none => .error (.apiKeyError apiKeyErrorMessage)
  | some key =>
    .ok { _api_key := key
          _base_url := "https://api.phish.net/v3"
          _request_limit := 120
          has_api_key := true }

/-- `_is_ok_response`: pass on status 200, otherwise defer to
`response.raise_for_status()`. -/
def _is_ok_response (response : Response) : Except PyError Unit :=
  if response.status_code = requests_codes_ok then
    .ok ()
  else
    raise_for_status response

/-- `_response_has_error`: raise `ResponseError` when the body's
`error_code` is `!= 0`, with the service's code and message formatted
into the error text. -/
def _response_has_error (response : Response) : Except PyError Unit :=
  let json_response := response.body
  if (json_response.get "error_code").neZeroPy then
    .error (.responseError
      ("error code " ++ (json_response.get "error_code").pyStr
        ++ ": " ++ (json_response.get "error_message").pyStr))
  else
    .ok ()

/-- `_add_api_key_to_query_params`: the payload dict initialized with the
api key. -/
def _add_api_key_to_query_params (self : PhishNetAPI) : Payload :=
  [("apikey", Json.str self._api_key)]

/-- The api key held by a payload (`payload['apikey']`, always a string
put there by `_add_api_key_to_query_params`). -/
def payloadApiKey (payload : Payload) : String :=
  match payload.lookup "apikey" with
  | some (.str s) => s
  | _ => ""

/-- `_mask_api_key_from_url`:
`response.url.replace(payload['apikey'], '<<apikey>>')`. -/
def _mask_api_key_from_url (response : Response) (payload : Payload) : String :=
  pyReplace response.url (payloadApiKey payload) "<<apikey>>"

/-- `_mask_api_key_from_query_string`: the masked URL with the endpoint
removed (`masked_url.replace(endpoint, '')`). -/
def _mask_api_key_from_query_string (response : Response) (payload : Payload)
    (endpoint : String) : String :=
  pyReplace (pyReplace response.url (payloadApiKey payload) "<<apikey>>") endpoint ""

/-- `_append_endpoint`. -/
def _append_endpoint (url endpoint : String) : String :=
  url ++ endpoint

/-! ### Endpoint methods -/

/-- `get_all_venues`: query `/venues/all` with the api-key payload, store
the endpoint / masked url / masked query string on the instance, check
the two error kinds, and shape `response.data` (an object of venue
records) into a transposed dataframe with one row per venue. -/
def get_all_venues (self : PhishNetAPI) (http : Http) :
    PhishNetAPI × Except PyError DataFrame :=
  let endpoint := "/venues/all"
  let endpointFull := _append_endpoint self._base_url endpoint
  let self := { self with endpoint_ := some endpointFull }
  let payload := _add_api_key_to_query_params self
  let response := http endpointFull payload
  let self := { self with
    url_ := some (_mask_api_key_from_url response payload)
    query_string_ := some (_mask_api_key_from_query_string response payload endpointFull) }
  (self, do
    _is_ok_response response
    _response_has_error response
    pure (dfOfObjTransposed ((response.body.get "response").get "data")))

/-- The warning text emitted by `get_shows_by_year` for a year at the
300-show API cutoff. -/
def yearCutoffWarning (year : Int) : String :=
  "The year " ++ toString year ++ " has 300 or more shows, this API query is missing data."

/-- `get_shows_by_year`: query `/shows/query/` with api key, year and
`order='ASC'`, store the instance attributes, check the two error kinds,
warn when `response.count >= 300`, and shape `response.data` (a list of
show records) into a dataframe.  The second component collects the
warnings emitted. -/
def get_shows_by_year (self : PhishNetAPI) (http : Http) (year : Int) :
    PhishNetAPI × (List String × Except PyError DataFrame) :=
  let endpoint := "/shows/query/"
  let endpointFull := _append_endpoint self._base_url endpoint
  let self := { self with endpoint_ := some endpointFull }
  let payload := _add_api_key_to_query_params self
    ++ [("year", Json.num year), ("order", Json.str "ASC")]
  let response := http endpointFull payload
  let self := { self with
    url_ := some (_mask_api_key_from_url response payload)
    query_string_ := some (_mask_api_key_from_query_string response payload endpointFull) }
  let checked : Except PyError (List String × DataFrame) := do
    _is_ok_response response
    _response_has_error response
    match ((response.body.get "response").get "count").geIntPy 300 with
    | none => throw (.typeError "unorderable types in comparison with int")
    | some cutoff =>
      let warns := if cutoff then [yearCutoffWarning year] else []
      pure (warns, dfOfRecords ((response.body.get "response").get "data"))
  (self,
    match checked with
    | .error e => ([], .error e)
    | .ok (warns, year_shows) => (warns, .ok year_shows))

/-- The years `range(1983, current_year + 1)` iterated by
`get_all_shows`, in ascending order. -/
def yearRange (current_year : Int) : List Int :=
  (List.range (current_year + 1 - 1983).toNat).map (fun i => 1983 + Int.ofNat i)

/-- The year-iteration loop of `get_all_shows`: fetch each year in turn,
concatenating onto the accumulator with `ignore_index=True`; a raised
exception propagates out of the loop. -/
def get_all_shows_loop (self : PhishNetAPI) (http : Http) (years : List Int)
    (all_shows : DataFrame) (warns : List String) :
    PhishNetAPI × (List String × Except PyError DataFrame) :=
  match years with
  | [] => (self, (warns, .ok all_shows))
  | year :: rest =>
    match get_shows_by_year self http year with
    | (self, (w, .error e)) => (self, (warns ++ w, .error e))
    | (self, (w, .ok year_shows)) =>
      get_all_shows_loop self http rest
        (all_shows.concatIgnoreIndex year_shows) (warns ++ w)

/-- `get_all_shows`: iterate `get_shows_by_year` over
`range(1983, current_year + 1)`, starting from `pd.DataFrame()`. -/
def get_all_shows (self : PhishNetAPI) (http : Http) (current_year : Int) :
    PhishNetAPI × (List String × Except PyError DataFrame) :=
  get_all_shows_loop self http (yearRange current_year) DataFrame.emptyDF []

/-- `get_setlist`: query `/setlists/get` with api key and show id, store
the instance attributes, check the two error kinds, and shape
`response.data` into a dataframe. -/
def get_setlist (self : PhishNetAPI) (http : Http) (showid : Json) :
    PhishNetAPI × Except PyError DataFrame :=
  let endpoint := "/setlists/get"
  let endpointFull := _append_endpoint self._base_url endpoint
  let self := { self with endpoint_ := some endpointFull }
  let payload := _add_api_key_to_query_params self ++ [("showid", showid)]
  let response := http endpointFull payload
  let self := { self with
    url_ := some (_mask_api_key_from_url response payload)
    query_string_ := some (_mask_api_key_from_query_string response payload endpointFull) }
  (self, do
    _is_ok_response response
    _response_has_error response
    pure (dfOfRecords ((response.body.get "response").get "data")))

/-- The row loop of `get_all_setlists`: for each row of the shows
dataframe, fetch the setlist for `row[1].showid`; an empty setlist is
skipped and its show id collected into `null_setlists`; a non-empty one
gets its `setlistdata_clean` column and is appended (index kept).  At
the end the collected ids are stored on the instance only when the list
is non-empty. -/
def get_all_setlists_loop (self : PhishNetAPI) (http : Http)
    (parse_setlist_field : Json → Json) (rows : List (Json × Json))
    (all_setlists : DataFrame) (null_setlists : List Json) :
    PhishNetAPI × Except PyError DataFrame :=
  match rows with
  | [] =>
    if null_setlists.length > 0 then
      ({ self with null_setlists := some null_setlists }, .ok all_setlists)
    else
      (self, .ok all_setlists)
  | row :: rest =>
    match get_setlist self http (row.2.get "showid") with
    | (self, .error e) => (self, .error e)
    | (self, .ok setlist) =>
      if setlist.empty then
        get_all_setlists_loop self http parse_setlist_field rest
          all_setlists (null_setlists ++ [row.2.get "showid"])
      else
        get_all_setlists_loop self http parse_setlist_field rest
          (all_setlists.appendDF (setlist.assignSetlistClean parse_setlist_field))
          null_setlists

/-- `get_all_setlists`: iterate `get_setlist` over the rows of the input
shows dataframe. -/
def get_all_setlists (self : PhishNetAPI) (http : Http)
    (parse_setlist_field : Json → Json) (all_shows : DataFrame) :
    PhishNetAPI × Except PyError DataFrame :=
  get_all_setlists_loop self http parse_setlist_field all_shows.rows
    DataFrame.emptyDF []

/-! ### Statement abbreviations: the documented requests

Each endpoint method performs exactly one HTTP request; these
abbreviations name the response the oracle gives to the documented
endpoint URL and query parameters of each method, so the theorems below
can speak about "the response" without unfolding the method. -/

/-- The response to the `/venues/all` request with only the api key. -/
def venuesRequest (self : PhishNetAPI) (http : Http) : Response :=
  http (self._base_url ++ "/venues/all") [("apikey", Json.str self._api_key)]

/-- The response to the `/shows/query/` request with api key, year and
`order='ASC'`. -/
def showsRequest (self : PhishNetAPI) (http : Http) (year : Int) : Response :=
  http (self._base_url ++ "/shows/query/")
    [("apikey", Json.str self._api_key), ("year", Json.num year),
      ("order", Json.str "ASC")]

/-- The response to the `/setlists/get` request with api key and show
id. -/
def setlistRequest (self : PhishNetAPI) (http : Http) (showid : Json) : Response :=
  http (self._base_url ++ "/setlists/get")
    [("apikey", Json.str self._api_key), ("showid", showid)]

/-! ### Concrete fixtures used by the witness theorems -/

/-- A concrete instance as built by a successful `__init__`. -/
def wApi : PhishNetAPI :=
  { _api_key := "abc", _base_url := "https://api.phish.net/v3",
    _request_limit := 120, has_api_key := true }

/-- A concrete show record. -/
def wShowRec : Json :=
  Json.obj [("showid", Json.num 1), ("setlistdata", Json.str "raw")]

/-- An error-free body with the given `count` and `data`. -/
def wBody (count : Int) (data : Json) : Json :=
  Json.obj [("error_code", Json.num 0), ("error_message", Json.str ""),
    ("response", Json.obj [("count", Json.num count), ("data", data)])]

/-- A body reporting a service error. -/
def wErrBody : Json :=
  Json.obj [("error_code", Json.num 47), ("error_message", Json.str "whoops"),
    ("response", Json.obj [])]

/-- A response with the given status and body and an empty URL. -/
def wResp (status : Nat) (body : Json) : Response :=
  { status_code := status, url := "", body := body }

/-- A constant oracle. -/
def wHttp (r : Response) : Http := fun _ _ => r

/-- The instance of the api-key masking counterexample: the api key is
the string `key`, which the mask literal `<<apikey>>` itself contains. -/
def ceApi : PhishNetAPI :=
  { _api_key := "key", _base_url := "https://api.phish.net/v3",
    _request_limit := 120, has_api_key := true }

/-- The oracle of the masking counterexample: a successful response whose
URL carries the api key as a query parameter, as the live service
echoes it. -/
def ceHttp : Http :=
  wHttp { status_code := 200,
          url := "https://api.phish.net/v3/venues/all?apikey=key",
          body := wBody 1 (Json.obj []) }

/-! ### Lemmas about the `str.replace` model -/

/-- The fuel argument of `replaceAllFuel` is irrelevant as long as it
dominates the input length. -/
theorem replaceAllFuel_congr (k r : List Char) :
    ∀ (f₁ : Nat) (s : List Char) (f₂ : Nat), s.length ≤ f₁ → s.length ≤ f₂ →
      replaceAllFuel k r f₁ s = replaceAllFuel k r f₂ s := by
  intro f₁
  induction f₁ with
  | zero =>
    intro s f₂ hs₁ _
    have hs : s = [] := List.eq_nil_of_length_eq_zero (Nat.le_zero.mp hs₁)
    subst hs
    cases f₂ <;> rfl
  | succ f ih =>
    intro s f₂ hs₁ hs₂
    cases s with
    | nil => cases f₂ <;> rfl
    | cons c t =>
      cases f₂ with
      | zero => simp at hs₂
      | succ g =>
        have ht₁ : t.length ≤ f := by simpa using hs₁
        have ht₂ : t.length ≤ g := by simpa using hs₂
        by_cases hk : k = []
        · simp only [replaceAllFuel, if_pos hk]
          rw [ih t g ht₁ ht₂]
        · simp only [replaceAllFuel, if_neg hk]
          by_cases hp : List.isPrefixOf k (c :: t)
          · have hk1 : 1 ≤ k.length := by
              cases k with
              | nil => exact absurd rfl hk
              | cons _ _ => simp
            have hd₁ : (List.drop k.length (c :: t)).length ≤ f := by
              simp only [List.length_drop, List.length_cons]
              omega
            have hd₂ : (List.drop k.length (c :: t)).length ≤ g := by
              simp only [List.length_drop, List.length_cons]
              omega
            rw [if_pos hp, if_pos hp, ih _ g hd₁ hd₂]
          · rw [if_neg hp, if_neg hp, ih t g ht₁ ht₂]

/-- Unfolding: the empty string. -/
theorem replaceAll_nil (k r : List Char) :
    replaceAll k r [] = if k = [] then r else [] := rfl

/-- Unfolding: empty pattern inserts `r` before each character. -/
theorem replaceAll_cons_empty (r : List Char) (c : Char) (t : List Char) :
    replaceAll [] r (c :: t) = r ++ c :: replaceAll [] r t := by
  simp [replaceAll, List.length_cons, replaceAllFuel]

/-- Unfolding: a match at the head is replaced and the scan continues
after it. -/
theorem replaceAll_cons_pos (k r : List Char) (c : Char) (t : List Char)
    (hk : k ≠ []) (hp : List.isPrefixOf k (c :: t)) :
    replaceAll k r (c :: t) = r ++ replaceAll k r (List.drop k.length (c :: t)) := by
  have hk1 : 1 ≤ k.length := by
    cases k with
    | nil => exact absurd rfl hk
    | cons _ _ => simp
  have hd : (List.drop k.length (c :: t)).length ≤ t.length := by
    simp only [List.length_drop, List.length_cons]
    omega
  simp only [replaceAll, List.length_cons, replaceAllFuel, if_neg hk, if_pos hp]
  exact congrArg (r ++ ·) (replaceAllFuel_congr k r t.length _ _ hd (Nat.le_refl _))

/-- Unfolding: no match at the head copies the character. -/
theorem replaceAll_cons_neg (k r : List Char) (c : Char) (t : List Char)
    (hk : k ≠ []) (hp : ¬ List.isPrefixOf k (c :: t)) :
    replaceAll k r (c :: t) = c :: replaceAll k r t := by
  simp only [replaceAll, List.length_cons, replaceAllFuel, if_neg hk, if_neg hp]

/-- Leftmost-match decomposition: for a non-empty pattern, either the
pattern does not occur and the scan copies the input unchanged, or the
input splits as `a ++ k ++ b` with an occurrence-free prefix `a`, and the
output is `a ++ r ++` (the scan of `b`). -/
theorem replaceAll_decomp (k r : List Char) (hk : k ≠ []) :
    ∀ s : List Char,
      (¬ (k <:+: s) ∧ replaceAll k r s = s) ∨
      ∃ a b, s = a ++ k ++ b ∧ ¬ (k <:+: a) ∧
        replaceAll k r s = a ++ r ++ replaceAll k r b := by
  intro s
  induction s with
  | nil =>
    left
    refine ⟨?_, by rw [replaceAll_nil, if_neg hk]⟩
    intro h
    exact hk (List.infix_nil.mp h)
  | cons c t ih =>
    by_cases hp : List.isPrefixOf k (c :: t)
    · right
      have hpre : k <+: c :: t := by simpa using hp
      obtain ⟨b, hb⟩ := hpre
      refine ⟨[], b, by simpa using hb.symm, ?_, ?_⟩
      · intro h
        exact hk (List.infix_nil.mp h)
      · rw [replaceAll_cons_pos k r c t hk hp]
        have hdrop : List.drop k.length (c :: t) = b := by
          rw [← hb, List.drop_left]
        rw [hdrop]
        simp
    · rcases ih with ⟨hni, he⟩ | ⟨a, b, hab, hafree, he⟩
      · left
        refine ⟨?_, by rw [replaceAll_cons_neg k r c t hk hp, he]⟩
        intro h
        rcases List.infix_cons_iff.mp h with h | h
        · exact hp (by simpa using h)
        · exact hni h
      · right
        refine ⟨c :: a, b, by simp [hab], ?_, ?_⟩
        · intro h
          rcases List.infix_cons_iff.mp h with h | h
          · refine hp ?_
            have hct : k <+: c :: t :=
              h.trans ⟨k ++ b, by simp [hab]⟩
            simpa using hct
          · exact hafree h
        · rw [replaceAll_cons_neg k r c t hk hp, he]
          simp

/-- An occurrence inside an appended list lies in the left part, lies in
the right part, or straddles the boundary, splitting into a non-empty
suffix of the left part and a non-empty prefix of the right part. -/
theorem occ_append_cases {k x y : List Char} (h : k <:+: x ++ y) :
    k <:+: x ∨ k <:+: y ∨
      ∃ k₁ k₂, k = k₁ ++ k₂ ∧ k₁ ≠ [] ∧ k₂ ≠ [] ∧ k₁ <:+ x ∧ k₂ <+: y := by
  obtain ⟨u, v, huv⟩ := h
  have huv' : (u ++ k) ++ v = x ++ y := by simpa [List.append_assoc] using huv
  rcases List.append_eq_append_iff.mp huv' with ⟨a', hx, _⟩ | ⟨c', huk, hy⟩
  · left
    exact ⟨u, a', by rw [hx, List.append_assoc]⟩
  · rcases List.append_eq_append_iff.mp huk with ⟨w, hxw, hk⟩ | ⟨w, _, hc⟩
    · rcases eq_or_ne w [] with hw | hw
      · have hkc : k = c' := by simpa [hw] using hk
        exact Or.inr (Or.inl ⟨[], v, by simp [hy, hkc]⟩)
      · rcases eq_or_ne c' [] with hc0 | hc0
        · left
          have hkw : k = w := by simpa [hc0] using hk
          exact ⟨u, [], by simp [hxw, hkw]⟩
        · exact Or.inr (Or.inr ⟨w, c', hk, hw, hc0, ⟨u, hxw.symm⟩, ⟨v, hy.symm⟩⟩)
    · refine Or.inr (Or.inl ⟨w, v, ?_⟩)
      rw [hy, hc, List.append_assoc]

/-- Core masking guarantee: replacing every occurrence of a non-empty
pattern `k` that contains no `<` or `>` by a replacement `r` that starts
with `<`, ends with `>` and does not itself contain `k` yields an output
with no occurrence of `k` at all. -/
theorem replaceAll_no_occ (k r : List Char) (hk : k ≠ [])
    (hhd : r.head? = some '<') (hlast : r.getLast? = some '>')
    (hang : ∀ c ∈ k, c ≠ '<' ∧ c ≠ '>') (hsub : ¬ (k <:+: r)) :
    ∀ s, ¬ (k <:+: replaceAll k r s) := by
  have main : ∀ n, ∀ s : List Char, s.length ≤ n → ¬ (k <:+: replaceAll k r s) := by
    intro n
    induction n with
    | zero =>
      intro s hs
      have hnil : s = [] := List.eq_nil_of_length_eq_zero (Nat.le_zero.mp hs)
      subst hnil
      rw [replaceAll_nil, if_neg hk]
      intro h
      exact hk (List.infix_nil.mp h)
    | succ n ih =>
      intro s hs
      rcases replaceAll_decomp k r hk s with ⟨hni, he⟩ | ⟨a, b, hab, hafree, he⟩
      · rw [he]; exact hni
      · rw [he]
        intro hocc
        have hk1 : 1 ≤ k.length := by
          cases k with
          | nil => exact absurd rfl hk
          | cons _ _ => simp
        have hb : b.length ≤ n := by
          subst hab
          simp only [List.length_append] at hs
          omega
        have hocc' : k <:+: a ++ (r ++ replaceAll k r b) := by
          simpa [List.append_assoc] using hocc
        rcases occ_append_cases hocc' with h | h | ⟨k₁, k₂, hkk, _, hk₂, _, hpre⟩
        · exact hafree h
        · rcases occ_append_cases h with h2 | h2 | ⟨k₁, k₂, hkk, hk₁, _, hsuf, _⟩
          · exact hsub h2
          · exact ih b hb h2
          · have hgl : k₁.getLast? = some '>' := by
              obtain ⟨w, hw⟩ := hsuf
              rw [← hw, List.getLast?_append] at hlast
              cases hgl' : k₁.getLast? with
              | none => exact absurd (List.getLast?_eq_none_iff.mp hgl') hk₁
              | some x =>
                rw [hgl'] at hlast
                simpa using hlast
            have hmem : '>' ∈ k := by
              rw [hkk]
              exact List.mem_append.mpr (Or.inl (List.mem_of_getLast?_eq_some hgl))
            exact (hang '>' hmem).2 rfl
        · have hhd2 : k₂.head? = some '<' := by
            obtain ⟨w, hw⟩ := hpre
            have hw' : (k₂ ++ w).head? = some '<' := by
              rw [hw, List.head?_append, hhd]
              rfl
            rw [List.head?_append] at hw'
            cases hh : k₂.head? with
            | none => exact absurd (List.head?_eq_none_iff.mp hh) hk₂
            | some x =>
              rw [hh] at hw'
              simpa using hw'
          have hmem : '<' ∈ k := by
            rw [hkk]
            refine List.mem_append.mpr (Or.inr (List.mem_of_mem_head? ?_))
            rw [hhd2]
            simp
          exact (hang '<' hmem).1 rfl
  intro s
  exact main s.length s (Nat.le_refl _)

/-- When the pattern does not occur, the scan is the identity. -/
theorem replaceAll_eq_self (k r s : List Char) (hk : k ≠ []) (h : ¬ (k <:+: s)) :
    replaceAll k r s = s := by
  rcases replaceAll_decomp k r hk s with ⟨_, he⟩ | ⟨a, b, hab, _, _⟩
  · exact he
  · exact absurd (hab ▸ List.infix_append a k b) h

/-- A pattern at the very front is replaced and the scan continues on the
remainder. -/
theorem replaceAll_append_self (k r t : List Char) (hk : k ≠ []) :
    replaceAll k r (k ++ t) = r ++ replaceAll k r t := by
  cases hkt : k ++ t with
  | nil =>
    exact absurd (List.append_eq_nil.mp hkt).1 hk
  | cons c u =>
    have hp : List.isPrefixOf k (c :: u) := by
      rw [← hkt]
      simp
    rw [replaceAll_cons_pos k r c u hk hp, ← hkt, List.drop_left]

/-! ### Lifting the masking lemmas to strings -/

/-- After masking with `'<<apikey>>'`, a non-empty key that contains no
angle bracket and is not a fragment of the mask literal no longer occurs
anywhere in the string. -/
theorem pyReplace_mask_no_occ (s k : String) (hk : k ≠ "")
    (hang : ∀ c ∈ k.toList, c ≠ '<' ∧ c ≠ '>')
    (hsub : ¬ (k.toList <:+: "<<apikey>>".toList)) :
    ¬ (k.toList <:+: (pyReplace s k "<<apikey>>").toList) := by
  have hkl : k.toList ≠ [] := by
    intro h
    exact hk (String.ext h)
  have hgoal :
      ¬ (k.toList <:+: replaceAll k.toList "<<apikey>>".toList s.toList) :=
    replaceAll_no_occ k.toList "<<apikey>>".toList hkl (by decide) (by decide)
      hang hsub s.toList
  exact hgoal

/-- Removing a leading endpoint with `str.replace(endpoint, '')` leaves
exactly the query-string part when the endpoint occurs only as the
prefix. -/
theorem pyReplace_strip_endpoint (endpoint q : String) (hE : endpoint ≠ "")
    (hocc : ¬ (endpoint.toList <:+: q.toList)) :
    pyReplace (endpoint ++ q) endpoint "" = q := by
  have hEl : endpoint.toList ≠ [] := by
    intro h
    exact hE (String.ext h)
  apply String.ext
  show replaceAll endpoint.toList [] (endpoint ++ q).toList = q.toList
  have hsplit : (endpoint ++ q).toList = endpoint.toList ++ q.toList :=
    String.data_append endpoint q
  rw [hsplit, replaceAll_append_self endpoint.toList [] q.toList hEl,
    replaceAll_eq_self endpoint.toList [] q.toList hEl hocc]
  rfl

/-- An occurrence inside a part of a string is an occurrence in the whole
string. -/
theorem occ_of_occ_suffix {k q m : List Char} (h : q <:+ m) (hocc : k <:+: q) :
    k <:+: m :=
  hocc.trans h.isInfix

/-! ### Index bookkeeping lemmas -/

theorem resetIndexFrom_map_snd (i : Int) (l : List Json) :
    (resetIndexFrom i l).map Prod.snd = l := by
  induction l generalizing i with
  | nil => rfl
  | cons r rs ih => simp [resetIndexFrom, ih]

theorem resetIndex_map_snd (l : List Json) :
    (resetIndex l).map Prod.snd = l :=
  resetIndexFrom_map_snd 0 l

/-- `pd.concat(..., ignore_index=True)` stacks the records. -/
theorem records_concatIgnoreIndex (a b : DataFrame) :
    (a.concatIgnoreIndex b).records = a.records ++ b.records := by
  simp [DataFrame.concatIgnoreIndex, DataFrame.records, resetIndex_map_snd]

/-- After `ignore_index=True` concatenation, the rows are exactly the
stacked records under a fresh range index. -/
theorem rows_concatIgnoreIndex (a b : DataFrame) :
    (a.concatIgnoreIndex b).rows = resetIndex (a.records ++ b.records) := rfl

/-! ### Endpoint-method plumbing lemmas -/

theorem get_shows_by_year_fst_api_key (s : PhishNetAPI) (http : Http) (y : Int) :
    ((get_shows_by_year s http y).1)._api_key = s._api_key := rfl

theorem get_shows_by_year_fst_base_url (s : PhishNetAPI) (http : Http) (y : Int) :
    ((get_shows_by_year s http y).1)._base_url = s._base_url := rfl

theorem get_setlist_fst_api_key (s : PhishNetAPI) (http : Http) (j : Json) :
    ((get_setlist s http j).1)._api_key = s._api_key := rfl

theorem get_setlist_fst_base_url (s : PhishNetAPI) (http : Http) (j : Json) :
    ((get_setlist s http j).1)._base_url = s._base_url := rfl

theorem get_setlist_fst_null_setlists (s : PhishNetAPI) (http : Http) (j : Json) :
    ((get_setlist s http j).1).null_setlists = s.null_setlists := rfl

/-- The warnings and result of `get_shows_by_year` depend on the instance
only through its api key and base url (the attributes it mutates do not
feed back into behaviour). -/
theorem get_shows_by_year_snd_congr (s₁ s₂ : PhishNetAPI) (http : Http) (y : Int)
    (hkey : s₁._api_key = s₂._api_key) (hbase : s₁._base_url = s₂._base_url) :
    (get_shows_by_year s₁ http y).2 = (get_shows_by_year s₂ http y).2 := by
  simp only [get_shows_by_year, _append_endpoint, _add_api_key_to_query_params,
    hkey, hbase]

/-- The result of `get_setlist` depends on the instance only through its
api key and base url. -/
theorem get_setlist_snd_congr (s₁ s₂ : PhishNetAPI) (http : Http) (j : Json)
    (hkey : s₁._api_key = s₂._api_key) (hbase : s₁._base_url = s₂._base_url) :
    (get_setlist s₁ http j).2 = (get_setlist s₂ http j).2 := by
  simp only [get_setlist, _append_endpoint, _add_api_key_to_query_params,
    hkey, hbase]

/-! ### Error-check evaluation lemmas -/

theorem _is_ok_response_of_200 (r : Response) (h : r.status_code = 200) :
    _is_ok_response r = Except.ok () := by
  simp [_is_ok_response, requests_codes_ok, h]

theorem _is_ok_response_of_success (r : Response) (h : r.status_code < 400) :
    _is_ok_response r = Except.ok () := by
  by_cases h2 : r.status_code = 200
  · simp [_is_ok_response, requests_codes_ok, h2]
  · simp only [_is_ok_response, requests_codes_ok, if_neg h2, raise_for_status]
    rw [if_neg]
    omega

theorem _is_ok_response_of_client_server_error (r : Response)
    (h4 : 400 ≤ r.status_code) (h6 : r.status_code < 600) :
    _is_ok_response r = Except.error (PyError.httpError r.status_code) := by
  have h2 : r.status_code ≠ 200 := by omega
  simp only [_is_ok_response, requests_codes_ok, if_neg h2, raise_for_status]
  rw [if_pos ⟨h4, h6⟩]

theorem _response_has_error_of_zero (r : Response)
    (h : r.body.get "error_code" = Json.num 0) :
    _response_has_error r = Except.ok () := by
  simp [_response_has_error, h, Json.neZeroPy]

theorem _response_has_error_raises (r : Response) (c : Int) (m : String)
    (hec : r.body.get "error_code" = Json.num c) (hc : c ≠ 0)
    (hem : r.body.get "error_message" = Json.str m) :
    _response_has_error r =
      Except.error (PyError.responseError ("error code " ++ toString c ++ ": " ++ m)) := by
  simp [_response_has_error, hec, hem, Json.neZeroPy, Json.pyStr, hc]

/-! ### Method-result unfolding lemmas -/

theorem get_all_venues_snd (self : PhishNetAPI) (http : Http) :
    (get_all_venues self http).2 = (do
      _is_ok_response (venuesRequest self http)
      _response_has_error (venuesRequest self http)
      pure (dfOfObjTransposed
        (((venuesRequest self http).body.get "response").get "data"))) := rfl

theorem get_setlist_snd (self : PhishNetAPI) (http : Http) (showid : Json) :
    (get_setlist self http showid).2 = (do
      _is_ok_response (setlistRequest self http showid)
      _response_has_error (setlistRequest self http showid)
      pure (dfOfRecords
        (((setlistRequest self http showid).body.get "response").get "data"))) := rfl

theorem get_shows_by_year_snd (self : PhishNetAPI) (http : Http) (year : Int) :
    (get_shows_by_year self http year).2 =
      (match (do
          _is_ok_response (showsRequest self http year)
          _response_has_error (showsRequest self http year)
          match (((showsRequest self http year).body.get "response").get "count").geIntPy 300 with
          | none => throw (PyError.typeError "unorderable types in comparison with int")
          | some cutoff =>
            pure (if cutoff then [yearCutoffWarning year] else [],
              dfOfRecords (((showsRequest self http year).body.get "response").get "data"))
          : Except PyError (List String × DataFrame)) with
        | .error e => ([], .error e)
        | .ok (warns, year_shows) => (warns, .ok year_shows)) := rfl

theorem except_bind_error {α β : Type} (e : PyError) (f : α → Except PyError β) :
    (Except.error e >>= f) = Except.error e := rfl

theorem except_bind_ok {α β : Type} (a : α) (f : α → Except PyError β) :
    (Except.ok a >>= f) = f a := rfl

/-- Any exception raised by the status check is the HTTP client's own
error, never a wrapper-defined one. -/
theorem _is_ok_response_not_responseError (r : Response) (e : PyError)
    (h : _is_ok_response r = Except.error e) : e.isResponseError = false := by
  simp only [_is_ok_response, requests_codes_ok, raise_for_status] at h
  split at h
  · simp at h
  · split at h
    · cases h
      rfl
    · simp at h

/-! ### Claim C2 -/

/-- Claim C2: constructing a `PhishNetAPI` raises `ApiKeyError` if and
only if no api key is found in the `PHISH_API_KEY` environment variable
(fail-fast: the failure is in the constructor itself, before any endpoint
method exists); when the key is present, construction succeeds and the
`has_api_key` attribute is `True`. -/
theorem claim_C2_api_key_check (env_PHISH_API_KEY : Option String) :
    (env_PHISH_API_KEY = none →
      PhishNetAPI.init env_PHISH_API_KEY =
        Except.error (PyError.apiKeyError apiKeyErrorMessage))
    ∧ (∀ k, env_PHISH_API_KEY = some k →
      PhishNetAPI.init env_PHISH_API_KEY =
        Except.ok { _api_key := k, _base_url := "https://api.phish.net/v3",
                    _request_limit := 120, has_api_key := true }
      ∧ ∀ s, PhishNetAPI.init env_PHISH_API_KEY = Except.ok s →
          s.has_api_key = true)
    ∧ (∀ e, PhishNetAPI.init env_PHISH_API_KEY = Except.error e →
      env_PHISH_API_KEY = none ∧ e = PyError.apiKeyError apiKeyErrorMessage) := by
  refine ⟨?_, ?_, ?_⟩
  · intro h
    subst h
    rfl
  · intro k hk
    subst hk
    refine ⟨rfl, ?_⟩
    intro s hs
    simp only [PhishNetAPI.init, Except.ok.injEq] at hs
    rw [← hs]
  · intro e he
    cases env_PHISH_API_KEY with
    | none =>
      simp only [PhishNetAPI.init, Except.error.injEq] at he
      exact ⟨rfl, he.symm⟩
    | some k =>
      simp [PhishNetAPI.init] at he

theorem claim_C2_api_key_check_witness :
    PhishNetAPI.init none =
      Except.error (PyError.apiKeyError apiKeyErrorMessage)
    ∧ PhishNetAPI.init (some "abc") =
      Except.ok { _api_key := "abc", _base_url := "https://api.phish.net/v3",
                  _request_limit := 120, has_api_key := true } :=
  ⟨(claim_C2_api_key_check none).1 rfl,
   ((claim_C2_api_key_check (some "abc")).2.1 "abc" rfl).1⟩

/-! ### Claim C1 -/

/-- Claim C1: for every API response (one the service actually returned,
status 200) whose JSON body carries a non-zero `error_code`, each
endpoint method — `get_all_venues`, `get_shows_by_year`, `get_setlist` —
raises a `ResponseError` whose message contains the service's error code
and `error_message`; when `error_code` equals `0`, no `ResponseError` is
raised (on any path whatsoever). -/
theorem claim_C1_response_error (self : PhishNetAPI) (http : Http) (year : Int)
    (showid : Json) :
    (∀ c m, (venuesRequest self http).status_code = 200 →
      (venuesRequest self http).body.get "error_code" = Json.num c → c ≠ 0 →
      (venuesRequest self http).body.get "error_message" = Json.str m →
      (get_all_venues self http).2 =
        Except.error (PyError.responseError
          ("error code " ++ toString c ++ ": " ++ m)))
    ∧ ((venuesRequest self http).body.get "error_code" = Json.num 0 →
      ∀ e, (get_all_venues self http).2 = Except.error e →
        e.isResponseError = false)
    ∧ (∀ c m, (showsRequest self http year).status_code = 200 →
      (showsRequest self http year).body.get "error_code" = Json.num c → c ≠ 0 →
      (showsRequest self http year).body.get "error_message" = Json.str m →
      (get_shows_by_year self http year).2.2 =
        Except.error (PyError.responseError
          ("error code " ++ toString c ++ ": " ++ m)))
    ∧ ((showsRequest self http year).body.get "error_code" = Json.num 0 →
      ∀ e, (get_shows_by_year self http year).2.2 = Except.error e →
        e.isResponseError = false)
    ∧ (∀ c m, (setlistRequest self http showid).status_code = 200 →
      (setlistRequest self http showid).body.get "error_code" = Json.num c → c ≠ 0 →
      (setlistRequest self http showid).body.get "error_message" = Json.str m →
      (get_setlist self http showid).2 =
        Except.error (PyError.responseError
          ("error code " ++ toString c ++ ": " ++ m)))
    ∧ ((setlistRequest self http showid).body.get "error_code" = Json.num 0 →
      ∀ e, (get_setlist self http showid).2 = Except.error e →
        e.isResponseError = false) := by
  refine ⟨?_, ?_, ?_, ?_, ?_, ?_⟩
  · intro c m hst hec hc hem
    rw [get_all_venues_snd, _is_ok_response_of_200 _ hst,
      _response_has_error_raises _ c m hec hc hem]
    rfl
  · intro h0 e he
    rw [get_all_venues_snd] at he
    cases hok : _is_ok_response (venuesRequest self http) with
    | error e' =>
      rw [hok] at he
      simp only [except_bind_error, Except.error.injEq] at he
      exact he ▸ _is_ok_response_not_responseError _ e' hok
    | ok u =>
      rw [hok] at he
      simp only [except_bind_ok, _response_has_error_of_zero _ h0] at he
      simp [pure, Except.pure] at he
  · intro c m hst hec hc hem
    rw [get_shows_by_year_snd, _is_ok_response_of_200 _ hst,
      _response_has_error_raises _ c m hec hc hem]
    rfl
  · intro h0 e he
    rw [get_shows_by_year_snd] at he
    cases hok : _is_ok_response (showsRequest self http year) with
    | error e' =>
      rw [hok] at he
      simp only [except_bind_error] at he
      simp at he
      exact he ▸ _is_ok_response_not_responseError _ e' hok
    | ok u =>
      rw [hok] at he
      simp only [except_bind_ok, _response_has_error_of_zero _ h0] at he
      cases hge : (((showsRequest self http year).body.get "response").get "count").geIntPy 300 with
      | none =>
        rw [hge] at he
        simp at he
        subst he
        rfl
      | some b =>
        rw [hge] at he
        simp [pure, Except.pure] at he
  · intro c m hst hec hc hem
    rw [get_setlist_snd, _is_ok_response_of_200 _ hst,
      _response_has_error_raises _ c m hec hc hem]
    rfl
  · intro h0 e he
    rw [get_setlist_snd] at he
    cases hok : _is_ok_response (setlistRequest self http showid) with
    | error e' =>
      rw [hok] at he
      simp only [except_bind_error, Except.error.injEq] at he
      exact he ▸ _is_ok_response_not_responseError _ e' hok
    | ok u =>
      rw [hok] at he
      simp only [except_bind_ok, _response_has_error_of_zero _ h0] at he
      simp [pure, Except.pure] at he

theorem claim_C1_response_error_witness :
    (get_all_venues wApi (wHttp (wResp 200 wErrBody))).2 =
      Except.error (PyError.responseError
        ("error code " ++ toString (47 : Int) ++ ": " ++ "whoops")) :=
  (claim_C1_response_error wApi (wHttp (wResp 200 wErrBody)) 1983 (Json.num 1)).1
    47 "whoops" rfl rfl (by decide) rfl

/-! ### Claim C3 -/

/-- Claim C3: for every HTTP response whose status code is not a success
code (for the `requests` client: a 4xx client error or 5xx server
error), each endpoint method propagates the client's own `HTTPError`
from `response.raise_for_status()` unchanged — no wrapper-defined
exception; for a success status (below 400) the status check raises
nothing. -/
theorem claim_C3_http_status (self : PhishNetAPI) (http : Http) (year : Int)
    (showid : Json) :
    (400 ≤ (venuesRequest self http).status_code →
      (venuesRequest self http).status_code < 600 →
      (get_all_venues self http).2 =
        Except.error (PyError.httpError (venuesRequest self http).status_code))
    ∧ ((venuesRequest self http).status_code < 400 →
      _is_ok_response (venuesRequest self http) = Except.ok ())
    ∧ (400 ≤ (showsRequest self http year).status_code →
      (showsRequest self http year).status_code < 600 →
      (get_shows_by_year self http year).2.2 =
        Except.error (PyError.httpError (showsRequest self http year).status_code))
    ∧ ((showsRequest self http year).status_code < 400 →
      _is_ok_response (showsRequest self http year) = Except.ok ())
    ∧ (400 ≤ (setlistRequest self http showid).status_code →
      (setlistRequest self http showid).status_code < 600 →
      (get_setlist self http showid).2 =
        Except.error (PyError.httpError (setlistRequest self http showid).status_code))
    ∧ ((setlistRequest self http showid).status_code < 400 →
      _is_ok_response (setlistRequest self http showid) = Except.ok ()) := by
  refine ⟨?_, ?_, ?_, ?_, ?_, ?_⟩
  · intro h4 h6
    rw [get_all_venues_snd, _is_ok_response_of_client_server_error _ h4 h6]
    rfl
  · exact _is_ok_response_of_success _
  · intro h4 h6
    rw [get_shows_by_year_snd, _is_ok_response_of_client_server_error _ h4 h6]
    rfl
  · exact _is_ok_response_of_success _
  · intro h4 h6
    rw [get_setlist_snd, _is_ok_response_of_client_server_error _ h4 h6]
    rfl
  · exact _is_ok_response_of_success _

theorem claim_C3_http_status_witness :
    (get_all_venues wApi (wHttp (wResp 404 wErrBody))).2 =
      Except.error (PyError.httpError 404)
    ∧ _is_ok_response (venuesRequest wApi (wHttp (wResp 200 wErrBody))) =
      Except.ok () :=
  ⟨(claim_C3_http_status wApi (wHttp (wResp 404 wErrBody)) 1983 (Json.num 1)).1
      (by decide) (by decide),
   (claim_C3_http_status wApi (wHttp (wResp 200 wErrBody)) 1983 (Json.num 1)).2.1
      (by decide)⟩

/-! ### Claim C6 -/

/-- Claim C6: each fetch sends exactly the documented query parameters to
its endpoint — `get_all_venues` only the api key, `get_shows_by_year` the
api key, the year and `order='ASC'`, `get_setlist` the api key and the
show id.  Formally: a method's entire behaviour (state update and result)
is unchanged under any two oracles that agree on just that one documented
request, i.e. the method consults the HTTP layer at exactly the
documented endpoint and payload. -/
theorem claim_C6_request_parameters (self : PhishNetAPI) (http₁ http₂ : Http)
    (year : Int) (showid : Json) :
    (venuesRequest self http₁ = venuesRequest self http₂ →
      get_all_venues self http₁ = get_all_venues self http₂)
    ∧ (showsRequest self http₁ year = showsRequest self http₂ year →
      get_shows_by_year self http₁ year = get_shows_by_year self http₂ year)
    ∧ (setlistRequest self http₁ showid = setlistRequest self http₂ showid →
      get_setlist self http₁ showid = get_setlist self http₂ showid) := by
  refine ⟨?_, ?_, ?_⟩
  · intro h
    simp only [venuesRequest] at h
    simp only [get_all_venues, _append_endpoint, _add_api_key_to_query_params, h]
  · intro h
    simp only [showsRequest] at h
    simp only [get_shows_by_year, _append_endpoint, _add_api_key_to_query_params,
      List.singleton_append, h]
  · intro h
    simp only [setlistRequest] at h
    simp only [get_setlist, _append_endpoint, _add_api_key_to_query_params,
      List.singleton_append, h]

theorem claim_C6_request_parameters_witness :
    get_all_venues wApi (wHttp (wResp 200 wErrBody)) =
      get_all_venues wApi (wHttp (wResp 200 wErrBody)) :=
  (claim_C6_request_parameters wApi (wHttp (wResp 200 wErrBody))
    (wHttp (wResp 200 wErrBody)) 1983 (Json.num 1)).1 rfl

/-! ### Claim C7 -/

/-- Claim C7: for every successful, error-free response, each fetch
flattens the JSON payload under `response.data` into tabular rows:
`get_all_venues` turns the `data` object into a transposed dataframe with
one row per venue record (indexed by venue id), while
`get_shows_by_year` and `get_setlist` turn the `data` record list into a
range-indexed dataframe of those records directly. -/
theorem claim_C7_flattening (self : PhishNetAPI) (http : Http) (year : Int)
    (showid : Json) :
    (∀ vs, (venuesRequest self http).status_code = 200 →
      (venuesRequest self http).body.get "error_code" = Json.num 0 →
      ((venuesRequest self http).body.get "response").get "data" = Json.obj vs →
      (get_all_venues self http).2 =
        Except.ok ⟨vs.map (fun p => (Json.str p.1, p.2))⟩)
    ∧ (∀ xs n, (showsRequest self http year).status_code = 200 →
      (showsRequest self http year).body.get "error_code" = Json.num 0 →
      ((showsRequest self http year).body.get "response").get "count" = Json.num n →
      ((showsRequest self http year).body.get "response").get "data" = Json.arr xs →
      (get_shows_by_year self http year).2.2 = Except.ok ⟨resetIndex xs⟩)
    ∧ (∀ xs, (setlistRequest self http showid).status_code = 200 →
      (setlistRequest self http showid).body.get "error_code" = Json.num 0 →
      ((setlistRequest self http showid).body.get "response").get "data" = Json.arr xs →
      (get_setlist self http showid).2 = Except.ok ⟨resetIndex xs⟩) := by
  refine ⟨?_, ?_, ?_⟩
  · intro vs hst hec hdata
    rw [get_all_venues_snd, _is_ok_response_of_200 _ hst,
      _response_has_error_of_zero _ hec]
    simp only [except_bind_ok, hdata]
    rfl
  · intro xs n hst hec hcount hdata
    rw [get_shows_by_year_snd, _is_ok_response_of_200 _ hst,
      _response_has_error_of_zero _ hec]
    simp only [except_bind_ok, hcount, hdata, Json.geIntPy]
    cases Decidable.em (300 ≤ n) with
    | inl h => simp [h, pure, Except.pure, dfOfRecords]
    | inr h => simp [h, pure, Except.pure, dfOfRecords]
  · intro xs hst hec hdata
    rw [get_setlist_snd, _is_ok_response_of_200 _ hst,
      _response_has_error_of_zero _ hec]
    simp only [except_bind_ok, hdata]
    rfl

theorem claim_C7_flattening_witness :
    (get_all_venues wApi
      (wHttp (wResp 200 (wBody 1 (Json.obj [("9", Json.str "V")]))))).2 =
      Except.ok ⟨[("9", Json.str "V")].map (fun p => (Json.str p.1, p.2))⟩ :=
  (claim_C7_flattening wApi
    (wHttp (wResp 200 (wBody 1 (Json.obj [("9", Json.str "V")])))) 1983
    (Json.num 1)).1 [("9", Json.str "V")] rfl rfl rfl

/-! ### Claim C8 -/

/-- Claim C8: on a successful error-free response, `get_shows_by_year`
issues its cutoff warning if and only if the response's `count` field is
at least 300, and the returned dataframe is the same whether or not the
warning fires. -/
theorem claim_C8_cutoff_warning (self : PhishNetAPI) (http : Http) (year : Int)
    (n : Int)
    (hst : (showsRequest self http year).status_code = 200)
    (hec : (showsRequest self http year).body.get "error_code" = Json.num 0)
    (hcount : ((showsRequest self http year).body.get "response").get "count" =
      Json.num n) :
    ((get_shows_by_year self http year).2.1 =
      if 300 ≤ n then [yearCutoffWarning year] else [])
    ∧ ((get_shows_by_year self http year).2.1 ≠ [] ↔ 300 ≤ n)
    ∧ (get_shows_by_year self http year).2.2 =
      Except.ok (dfOfRecords
        (((showsRequest self http year).body.get "response").get "data")) := by
  have hsnd := get_shows_by_year_snd self http year
  rw [_is_ok_response_of_200 _ hst, _response_has_error_of_zero _ hec, hcount]
    at hsnd
  simp only [except_bind_ok, Json.geIntPy, pure, Except.pure,
    decide_eq_true_eq] at hsnd
  refine ⟨?_, ?_, ?_⟩
  · rw [hsnd]
  · rw [hsnd]
    by_cases h : 300 ≤ n
    · simp [h, yearCutoffWarning]
    · simp [h]
  · rw [hsnd]

theorem claim_C8_cutoff_warning_witness :
    (get_shows_by_year wApi
      (wHttp (wResp 200 (wBody 300 (Json.arr [])))) 1983).2.1 =
      [yearCutoffWarning 1983]
    ∧ (get_shows_by_year wApi
      (wHttp (wResp 200 (wBody 7 (Json.arr [])))) 1983).2.1 = [] := by
  constructor
  · have h := (claim_C8_cutoff_warning wApi
      (wHttp (wResp 200 (wBody 300 (Json.arr [])))) 1983 300 rfl rfl rfl).1
    simpa using h
  · have h := (claim_C8_cutoff_warning wApi
      (wHttp (wResp 200 (wBody 7 (Json.arr [])))) 1983 7 rfl rfl rfl).1
    simpa using h

/-! ### Claim C5 -/

/-- Invariant of the year loop: when every remaining year's fetch
succeeds, the loop returns the accumulator's records followed by each
year's records in iteration order, under a fresh range index. -/
theorem get_all_shows_loop_ok (self₀ : PhishNetAPI) (http : Http)
    (F : Int → DataFrame) :
    ∀ (years : List Int) (s : PhishNetAPI) (acc : DataFrame) (ws : List String),
      s._api_key = self₀._api_key → s._base_url = self₀._base_url →
      (∀ y ∈ years, (get_shows_by_year self₀ http y).2.2 = Except.ok (F y)) →
      acc.rows = resetIndex acc.records →
      (get_all_shows_loop s http years acc ws).2.2 =
        Except.ok ⟨resetIndex (acc.records ++
          (years.map (fun y => (F y).records)).flatten)⟩ := by
  intro years
  induction years with
  | nil =>
    intro s acc ws _ _ _ hacc
    simp only [get_all_shows_loop, List.map_nil, List.flatten_nil, List.append_nil]
    cases acc with
    | mk rows =>
      simp only [DataFrame.records] at hacc ⊢
      exact congrArg Except.ok (congrArg DataFrame.mk hacc)
  | cons y rest ih =>
    intro s acc ws hkey hbase hF hacc
    have hcongr : (get_shows_by_year s http y).2 =
        (get_shows_by_year self₀ http y).2 :=
      get_shows_by_year_snd_congr s self₀ http y hkey hbase
    rcases hgs : get_shows_by_year s http y with ⟨s', w, r⟩
    have hr : r = Except.ok (F y) := by
      have h1 : (s', w, r).2.2 = (get_shows_by_year self₀ http y).2.2 := by
        rw [← hgs, hcongr]
      rw [hF y (List.mem_cons_self y rest)] at h1
      exact h1
    subst hr
    have hs'key : s'._api_key = self₀._api_key := by
      have := get_shows_by_year_fst_api_key s http y
      rw [hgs] at this
      rw [this, hkey]
    have hs'base : s'._base_url = self₀._base_url := by
      have := get_shows_by_year_fst_base_url s http y
      rw [hgs] at this
      rw [this, hbase]
    simp only [get_all_shows_loop, hgs]
    rw [ih s' (acc.concatIgnoreIndex (F y)) (ws ++ w) hs'key hs'base
      (fun z hz => hF z (List.mem_cons_of_mem y hz))
      (by rw [rows_concatIgnoreIndex, records_concatIgnoreIndex])]
    simp [records_concatIgnoreIndex, List.append_assoc]

/-- Claim C5: `get_all_shows` returns the concatenation, in ascending
year order with a reset (fresh range) index, of the dataframes returned
by `get_shows_by_year(year)` for every year from 1983 through the
current year inclusive. -/
theorem claim_C5_all_shows (self : PhishNetAPI) (http : Http)
    (current_year : Int) (F : Int → DataFrame)
    (hF : ∀ y ∈ yearRange current_year,
      (get_shows_by_year self http y).2.2 = Except.ok (F y)) :
    (get_all_shows self http current_year).2.2 =
      Except.ok ⟨resetIndex
        (((yearRange current_year).map (fun y => (F y).records)).flatten)⟩
    ∧ (yearRange current_year).Pairwise (· < ·) := by
  constructor
  · have h := get_all_shows_loop_ok self http F (yearRange current_year) self
      DataFrame.emptyDF [] rfl rfl hF rfl
    simpa [get_all_shows, DataFrame.emptyDF, DataFrame.records] using h
  · unfold yearRange
    exact (List.pairwise_lt_range ((current_year + 1 - 1983).toNat)).map _
      (fun a b hab => by simp only [Int.ofNat_eq_natCast]; omega)

theorem claim_C5_all_shows_witness :
    (get_all_shows wApi (wHttp (wResp 200 (wBody 1 (Json.arr [wShowRec])))) 1983).2.2 =
      Except.ok ⟨resetIndex
        (((yearRange 1983).map (fun _ =>
          (dfOfRecords (Json.arr [wShowRec])).records)).flatten)⟩ :=
  (claim_C5_all_shows wApi (wHttp (wResp 200 (wBody 1 (Json.arr [wShowRec]))))
    1983 (fun _ => dfOfRecords (Json.arr [wShowRec]))
    (by
      intro y hy
      rw [show yearRange 1983 = [1983] from rfl] at hy
      simp only [List.mem_singleton] at hy
      subst hy
      rfl)).1


/-! ### Claims C4 and C10 -/

/-- Invariant of the setlist loop: when every remaining fetch succeeds,
the loop returns the accumulator's rows followed by, per input row in
order, nothing (for an empty fetched setlist) or the cleaned setlist's
rows; and the `null_setlists` attribute ends up holding the collected
ids of the empty setlists exactly when that collection is non-empty,
being left untouched otherwise. -/
theorem get_all_setlists_loop_ok (self₀ : PhishNetAPI) (http : Http)
    (parse : Json → Json) (F : Json → DataFrame) :
    ∀ (rows : List (Json × Json)) (s : PhishNetAPI) (acc : DataFrame)
      (nulls : List Json),
      s._api_key = self₀._api_key → s._base_url = self₀._base_url →
      s.null_setlists = self₀.null_setlists →
      (∀ row ∈ rows, (get_setlist self₀ http ((row : Json × Json).2.get "showid")).2 =
        Except.ok (F (row.2.get "showid"))) →
      (get_all_setlists_loop s http parse rows acc nulls).2 =
        Except.ok ⟨acc.rows ++ (rows.map (fun row =>
          if (F (row.2.get "showid")).empty then []
          else ((F (row.2.get "showid")).assignSetlistClean parse).rows)).flatten⟩
      ∧ (nulls ++ (rows.map (fun row => (row : Json × Json).2.get "showid")).filter
            (fun j => (F j).empty) = [] →
          ((get_all_setlists_loop s http parse rows acc nulls).1).null_setlists =
            self₀.null_setlists)
      ∧ (nulls ++ (rows.map (fun row => (row : Json × Json).2.get "showid")).filter
            (fun j => (F j).empty) ≠ [] →
          ((get_all_setlists_loop s http parse rows acc nulls).1).null_setlists =
            some (nulls ++ (rows.map (fun row => row.2.get "showid")).filter
              (fun j => (F j).empty))) := by
  intro rows
  induction rows with
  | nil =>
    intro s acc nulls _ _ hnull _
    simp only [get_all_setlists_loop, List.map_nil, List.flatten_nil,
      List.append_nil, List.filter_nil]
    cases hn : nulls with
    | nil =>
      refine ⟨by simp, fun _ => by simpa using hnull, fun hne => absurd rfl hne⟩
    | cons j js =>
      refine ⟨by simp, fun heq => absurd heq (by simp), fun _ => by simp⟩
  | cons row rest ih =>
    intro s acc nulls hkey hbase hnull hF
    have hcongr : (get_setlist s http (row.2.get "showid")).2 =
        (get_setlist self₀ http (row.2.get "showid")).2 :=
      get_setlist_snd_congr s self₀ http _ hkey hbase
    rcases hgs : get_setlist s http (row.2.get "showid") with ⟨s', r⟩
    have hr : r = Except.ok (F (row.2.get "showid")) := by
      have h1 : (s', r).2 = (get_setlist self₀ http (row.2.get "showid")).2 := by
        rw [← hgs, hcongr]
      rw [hF row (List.mem_cons_self row rest)] at h1
      exact h1
    subst hr
    have hs'key : s'._api_key = self₀._api_key := by
      have h := get_setlist_fst_api_key s http (row.2.get "showid")
      rw [hgs] at h
      rw [h, hkey]
    have hs'base : s'._base_url = self₀._base_url := by
      have h := get_setlist_fst_base_url s http (row.2.get "showid")
      rw [hgs] at h
      rw [h, hbase]
    have hs'null : s'.null_setlists = self₀.null_setlists := by
      have h := get_setlist_fst_null_setlists s http (row.2.get "showid")
      rw [hgs] at h
      rw [h, hnull]
    have hFrest : ∀ z ∈ rest,
        (get_setlist self₀ http ((z : Json × Json).2.get "showid")).2 =
          Except.ok (F (z.2.get "showid")) :=
      fun z hz => hF z (List.mem_cons_of_mem row hz)
    simp only [get_all_setlists_loop, hgs]
    cases hemp : (F (row.2.get "showid")).empty with
    | true =>
      have h := ih s' acc (nulls ++ [row.2.get "showid"]) hs'key hs'base
        hs'null hFrest
      rw [if_pos rfl]
      refine ⟨?_, ?_, ?_⟩
      · rw [h.1]
        simp [hemp]
      · intro heq
        exact absurd heq (by simp [hemp])
      · intro _
        have hne : (nulls ++ [row.2.get "showid"]) ++
            (rest.map (fun z => (z : Json × Json).2.get "showid")).filter
              (fun j => (F j).empty) ≠ [] := by
          simp
        rw [h.2.2 hne]
        simp [hemp, List.append_assoc]
    | false =>
      have h := ih s'
        (acc.appendDF ((F (row.2.get "showid")).assignSetlistClean parse))
        nulls hs'key hs'base hs'null hFrest
      rw [if_neg Bool.false_ne_true]
      refine ⟨?_, ?_, ?_⟩
      · rw [h.1]
        simp [hemp, DataFrame.appendDF, List.append_assoc]
      · intro heq
        refine h.2.1 ?_
        simpa [hemp] using heq
      · intro hne
        have hne' : nulls ++
            (rest.map (fun z => (z : Json × Json).2.get "showid")).filter
              (fun j => (F j).empty) ≠ [] := by
          simpa [hemp] using hne
        rw [h.2.2 hne']
        simp [hemp]

/-- Claim C4: for every input `all_shows` dataframe, `get_all_setlists`
fetches a setlist for each row's `showid`; every show whose fetched
setlist is empty is skipped and its id recorded in the `null_setlists`
collection (stored on the instance, there being at least one such id);
the returned dataframe holds the setlist records (with their cleaned
column) for exactly the shows whose fetched setlist was non-empty, in
row order. -/
theorem claim_C4_all_setlists (self : PhishNetAPI) (http : Http)
    (parse_setlist_field : Json → Json) (all_shows : DataFrame)
    (F : Json → DataFrame)
    (hF : ∀ row ∈ all_shows.rows,
      (get_setlist self http ((row : Json × Json).2.get "showid")).2 =
        Except.ok (F (row.2.get "showid"))) :
    (get_all_setlists self http parse_setlist_field all_shows).2 =
      Except.ok ⟨(all_shows.rows.map (fun row =>
        if (F (row.2.get "showid")).empty then []
        else ((F (row.2.get "showid")).assignSetlistClean
          parse_setlist_field).rows)).flatten⟩
    ∧ ((all_shows.rows.map (fun row => (row : Json × Json).2.get "showid")).filter
        (fun j => (F j).empty) ≠ [] →
      ((get_all_setlists self http parse_setlist_field all_shows).1).null_setlists =
        some ((all_shows.rows.map (fun row => row.2.get "showid")).filter
          (fun j => (F j).empty))) := by
  have h := get_all_setlists_loop_ok self http parse_setlist_field F
    all_shows.rows self DataFrame.emptyDF [] rfl rfl rfl hF
  refine ⟨?_, ?_⟩
  · have h1 := h.1
    simpa [get_all_setlists, DataFrame.emptyDF] using h1
  · intro hne
    have h3 := h.2.2 (by simpa using hne)
    simpa [get_all_setlists] using h3

theorem claim_C4_all_setlists_witness :
    (get_all_setlists wApi (wHttp (wResp 200 (wBody 1 (Json.arr [wShowRec]))))
      (fun j => j) (dfOfRecords (Json.arr [wShowRec]))).2 =
      Except.ok ⟨[(Json.num 0, Json.obj
        [("showid", Json.num 1), ("setlistdata", Json.str "raw"),
          ("setlistdata_clean", Json.str "raw")])]⟩ := by
  have h := (claim_C4_all_setlists wApi
    (wHttp (wResp 200 (wBody 1 (Json.arr [wShowRec])))) (fun j => j)
    (dfOfRecords (Json.arr [wShowRec]))
    (fun _ => dfOfRecords (Json.arr [wShowRec]))
    (by
      intro row hr
      rw [show (dfOfRecords (Json.arr [wShowRec])).rows =
        [(Json.num 0, wShowRec)] from rfl] at hr
      simp only [List.mem_singleton] at hr
      subst hr
      rfl)).1
  exact h.trans rfl

/-- Claim C10: `get_all_setlists` assigns the `null_setlists` instance
attribute only when at least one show was skipped for an empty setlist;
when every fetched setlist is non-empty the attribute is left unchanged
(in particular it stays unset if it was never set). -/
theorem claim_C10_null_setlists_frame (self : PhishNetAPI) (http : Http)
    (parse_setlist_field : Json → Json) (all_shows : DataFrame)
    (F : Json → DataFrame)
    (hF : ∀ row ∈ all_shows.rows,
      (get_setlist self http ((row : Json × Json).2.get "showid")).2 =
        Except.ok (F (row.2.get "showid"))) :
    ((all_shows.rows.map (fun row => (row : Json × Json).2.get "showid")).filter
        (fun j => (F j).empty) = [] →
      ((get_all_setlists self http parse_setlist_field all_shows).1).null_setlists =
        self.null_setlists)
    ∧ (((get_all_setlists self http parse_setlist_field all_shows).1).null_setlists ≠
        self.null_setlists →
      (all_shows.rows.map (fun row => (row : Json × Json).2.get "showid")).filter
        (fun j => (F j).empty) ≠ []) := by
  have h := get_all_setlists_loop_ok self http parse_setlist_field F
    all_shows.rows self DataFrame.emptyDF [] rfl rfl rfl hF
  have hfirst : (all_shows.rows.map
      (fun row => (row : Json × Json).2.get "showid")).filter
        (fun j => (F j).empty) = [] →
      ((get_all_setlists self http parse_setlist_field all_shows).1).null_setlists =
        self.null_setlists := by
    intro heq
    have h2 := h.2.1 (by simpa using heq)
    simpa [get_all_setlists] using h2
  exact ⟨hfirst, fun hattr heq => absurd (hfirst heq) hattr⟩

theorem claim_C10_null_setlists_frame_witness :
    ((get_all_setlists wApi (wHttp (wResp 200 (wBody 1 (Json.arr [wShowRec]))))
      (fun j => j) (dfOfRecords (Json.arr [wShowRec]))).1).null_setlists =
      wApi.null_setlists :=
  (claim_C10_null_setlists_frame wApi
    (wHttp (wResp 200 (wBody 1 (Json.arr [wShowRec])))) (fun j => j)
    (dfOfRecords (Json.arr [wShowRec]))
    (fun _ => dfOfRecords (Json.arr [wShowRec]))
    (by
      intro row hr
      rw [show (dfOfRecords (Json.arr [wShowRec])).rows =
        [(Json.num 0, wShowRec)] from rfl] at hr
      simp only [List.mem_singleton] at hr
      subst hr
      rfl)).1 rfl

/-! ### Claim C9 -/

/-- Helper for the amended masking claim: the masked URL never contains a
well-behaved key, and stripping a leading endpoint from it cannot
re-introduce the key. -/
theorem mask_pair_no_occ (key EP url : String) (hkne : key ≠ "")
    (hang : ∀ c ∈ key.toList, c ≠ '<' ∧ c ≠ '>')
    (hsub : ¬ (key.toList <:+: "<<apikey>>".toList)) (hE : EP ≠ "") :
    ¬ (key.toList <:+: (pyReplace url key "<<apikey>>").toList)
    ∧ ∀ q', pyReplace url key "<<apikey>>" = EP ++ q' →
        ¬ (EP.toList <:+: q'.toList) →
        ¬ (key.toList <:+:
          (pyReplace (pyReplace url key "<<apikey>>") EP "").toList) := by
  have h1 : ¬ (key.toList <:+: (pyReplace url key "<<apikey>>").toList) :=
    pyReplace_mask_no_occ url key hkne hang hsub
  refine ⟨h1, ?_⟩
  intro q' hsplit hocc
  rw [hsplit, pyReplace_strip_endpoint EP q' hE hocc]
  intro hk
  refine h1 ?_
  rw [hsplit]
  refine occ_of_occ_suffix ?_ hk
  exact ⟨EP.toList, (String.data_append EP q').symm⟩

/-- Claim C9, counterexample to the claim as stated: with the api key
`key` — a fragment of the mask literal `<<apikey>>` itself — the stored
`url_` still contains the key's value after `get_all_venues`, because
every inserted mask `<<apikey>>` contains `key`. -/
theorem claim_C9_masking_counterexample :
    PhishNetAPI.init (some "key") = Except.ok ceApi
    ∧ ((get_all_venues ceApi ceHttp).1.url_).getD "" =
        "https://api.phish.net/v3/venues/all?api<<apikey>>=<<apikey>>"
    ∧ ("key".toList <:+:
        (((get_all_venues ceApi ceHttp).1.url_).getD "").toList) :=
  ⟨rfl, rfl, by decide⟩

/-- Claim C9 as amended: after every endpoint method call, `url_` holds
the response URL with every occurrence of the api key's value replaced by
the literal `<<apikey>>`, and `query_string_` holds that masked URL with
every occurrence of the endpoint removed.  Provided the key is non-empty,
contains neither `<` nor `>`, and is not a fragment of the mask literal
`<<apikey>>` itself, the stored `url_` never contains the key; and when
the masked URL is the endpoint followed by a remainder in which the
endpoint does not occur again, the stored `query_string_` never contains
the key either. -/
theorem claim_C9_masking_amended (self : PhishNetAPI) (http : Http)
    (year : Int) (showid : Json)
    (hbase : self._base_url = "https://api.phish.net/v3")
    (hkne : self._api_key ≠ "")
    (hang : ∀ c ∈ self._api_key.toList, c ≠ '<' ∧ c ≠ '>')
    (hsub : ¬ (self._api_key.toList <:+: "<<apikey>>".toList)) :
    ((get_all_venues self http).1.url_ =
        some (pyReplace (venuesRequest self http).url self._api_key "<<apikey>>")
    ∧ (get_all_venues self http).1.query_string_ =
        some (pyReplace
          (pyReplace (venuesRequest self http).url self._api_key "<<apikey>>")
          (self._base_url ++ "/venues/all") "")
    ∧ (∀ u, (get_all_venues self http).1.url_ = some u →
        ¬ (self._api_key.toList <:+: u.toList))
    ∧ (∀ q q', (get_all_venues self http).1.query_string_ = some q →
        pyReplace (venuesRequest self http).url self._api_key "<<apikey>>" =
          (self._base_url ++ "/venues/all") ++ q' →
        ¬ ((self._base_url ++ "/venues/all").toList <:+: q'.toList) →
        ¬ (self._api_key.toList <:+: q.toList)))
    ∧ ((get_shows_by_year self http year).1.url_ =
        some (pyReplace (showsRequest self http year).url self._api_key "<<apikey>>")
    ∧ (get_shows_by_year self http year).1.query_string_ =
        some (pyReplace
          (pyReplace (showsRequest self http year).url self._api_key "<<apikey>>")
          (self._base_url ++ "/shows/query/") "")
    ∧ (∀ u, (get_shows_by_year self http year).1.url_ = some u →
        ¬ (self._api_key.toList <:+: u.toList))
    ∧ (∀ q q', (get_shows_by_year self http year).1.query_string_ = some q →
        pyReplace (showsRequest self http year).url self._api_key "<<apikey>>" =
          (self._base_url ++ "/shows/query/") ++ q' →
        ¬ ((self._base_url ++ "/shows/query/").toList <:+: q'.toList) →
        ¬ (self._api_key.toList <:+: q.toList)))
    ∧ ((get_setlist self http showid).1.url_ =
        some (pyReplace (setlistRequest self http showid).url self._api_key "<<apikey>>")
    ∧ (get_setlist self http showid).1.query_string_ =
        some (pyReplace
          (pyReplace (setlistRequest self http showid).url self._api_key "<<apikey>>")
          (self._base_url ++ "/setlists/get") "")
    ∧ (∀ u, (get_setlist self http showid).1.url_ = some u →
        ¬ (self._api_key.toList <:+: u.toList))
    ∧ (∀ q q', (get_setlist self http showid).1.query_string_ = some q →
        pyReplace (setlistRequest self http showid).url self._api_key "<<apikey>>" =
          (self._base_url ++ "/setlists/get") ++ q' →
        ¬ ((self._base_url ++ "/setlists/get").toList <:+: q'.toList) →
        ¬ (self._api_key.toList <:+: q.toList))) := by
  have hEv : self._base_url ++ "/venues/all" ≠ "" := by
    rw [hbase]
    decide
  have hEs : self._base_url ++ "/shows/query/" ≠ "" := by
    rw [hbase]
    decide
  have hEg : self._base_url ++ "/setlists/get" ≠ "" := by
    rw [hbase]
    decide
  refine ⟨⟨rfl, rfl, ?_, ?_⟩, ⟨rfl, rfl, ?_, ?_⟩, ⟨rfl, rfl, ?_, ?_⟩⟩
  · intro u hu
    have ha : (get_all_venues self http).1.url_ =
        some (pyReplace (venuesRequest self http).url self._api_key "<<apikey>>") := rfl
    rw [ha] at hu
    injection hu with hu
    subst hu
    exact (mask_pair_no_occ self._api_key (self._base_url ++ "/venues/all")
      (venuesRequest self http).url hkne hang hsub hEv).1
  · intro q q' hq hsplit hocc
    have hb : (get_all_venues self http).1.query_string_ =
        some (pyReplace
          (pyReplace (venuesRequest self http).url self._api_key "<<apikey>>")
          (self._base_url ++ "/venues/all") "") := rfl
    rw [hb] at hq
    injection hq with hq
    subst hq
    exact (mask_pair_no_occ self._api_key (self._base_url ++ "/venues/all")
      (venuesRequest self http).url hkne hang hsub hEv).2 q' hsplit hocc
  · intro u hu
    have ha : (get_shows_by_year self http year).1.url_ =
        some (pyReplace (showsRequest self http year).url self._api_key "<<apikey>>") := rfl
    rw [ha] at hu
    injection hu with hu
    subst hu
    exact (mask_pair_no_occ self._api_key (self._base_url ++ "/shows/query/")
      (showsRequest self http year).url hkne hang hsub hEs).1
  · intro q q' hq hsplit hocc
    have hb : (get_shows_by_year self http year).1.query_string_ =
        some (pyReplace
          (pyReplace (showsRequest self http year).url self._api_key "<<apikey>>")
          (self._base_url ++ "/shows/query/") "") := rfl
    rw [hb] at hq
    injection hq with hq
    subst hq
    exact (mask_pair_no_occ self._api_key (self._base_url ++ "/shows/query/")
      (showsRequest self http year).url hkne hang hsub hEs).2 q' hsplit hocc
  · intro u hu
    have ha : (get_setlist self http showid).1.url_ =
        some (pyReplace (setlistRequest self http showid).url self._api_key "<<apikey>>") := rfl
    rw [ha] at hu
    injection hu with hu
    subst hu
    exact (mask_pair_no_occ self._api_key (self._base_url ++ "/setlists/get")
      (setlistRequest self http showid).url hkne hang hsub hEg).1
  · intro q q' hq hsplit hocc
    have hb : (get_setlist self http showid).1.query_string_ =
        some (pyReplace
          (pyReplace (setlistRequest self http showid).url self._api_key "<<apikey>>")
          (self._base_url ++ "/setlists/get") "") := rfl
    rw [hb] at hq
    injection hq with hq
    subst hq
    exact (mask_pair_no_occ self._api_key (self._base_url ++ "/setlists/get")
      (setlistRequest self http showid).url hkne hang hsub hEg).2 q' hsplit hocc

theorem claim_C9_masking_amended_witness :
    ¬ ("abc".toList <:+:
      (pyReplace "https://api.phish.net/v3/venues/all?apikey=key" "abc"
        "<<apikey>>").toList) :=
  (claim_C9_masking_amended wApi ceHttp 1983 (Json.num 1) rfl (by decide)
    (by decide) (by decide)).1.2.2.1
    (pyReplace "https://api.phish.net/v3/venues/all?apikey=key" "abc"
      "<<apikey>>") rfl
